import Mathlib

/-!
Verification of the image-viewer application (src/image-viewer.py).

The program is a single-window slideshow viewer.  We shallowly embed the
state that its methods mutate (`self.images`, `self.current_image`,
`self.slideshow_direction`, `self.slide_delay`, `self.slideshow_running`,
the playback `QTimer`) as a Lean structure, and embed each method that the
claims mention as a pure state-transition function translated line by line
from the Python source.  Python integers become `Int`; Python's `%` with a
positive modulus coincides with `Int.emod` (Lean's `%` on `Int`), and
Python's floor division `//` is `Int.fdiv`.  The GUI display is modelled by
a derived function returning the path of the image shown, `none` when
nothing is shown.
-/

/-- The in-memory state of `ImageViewer` that the modelled methods read and
write.  `timerActive`/`timerInterval` model the playback `QTimer`
(`self.timer`): whether it is running and the interval it was last started
with. -/
structure ViewerState where
  images : List String
  current_image : Int
  slideshow_direction : Int
  slide_delay : Int
  slideshow_running : Bool
  timerActive : Bool
  timerInterval : Int
  deriving Repr, DecidableEq

/-- `ImageViewer.advance_slideshow`: when the image list is non-empty, set
`current_image := (current_image + slideshow_direction) % len(images)` and
redisplay; otherwise leave the state alone.  (`update_direction_label` and
`save_config` do not change the modelled state.) -/
def advance_slideshow (st : ViewerState) : ViewerState :=
  if st.images ≠ [] then
    { st with current_image :=
        (st.current_image + st.slideshow_direction) % (st.images.length : Int) }
  else st

/-- `ImageViewer.show_current_image`: the image shown, as the Python method
displays `images[current_image]` only when the list is non-empty and
`0 <= current_image < len(images)`; `none` models the empty display. -/
def show_current_image (st : ViewerState) : Option String :=
  if st.images ≠ [] ∧ 0 ≤ st.current_image ∧ st.current_image < (st.images.length : Int) then
    st.images.get? st.current_image.toNat
  else none

/-- `ImageViewer.show_next_image`: when the list is non-empty, set the
direction to `1` and advance. -/
def show_next_image (st : ViewerState) : ViewerState :=
  if st.images ≠ [] then
    advance_slideshow { st with slideshow_direction := 1 }
  else st

/-- `ImageViewer.show_previous_image`: when the list is non-empty, set the
direction to `-1` and advance. -/
def show_previous_image (st : ViewerState) : ViewerState :=
  if st.images ≠ [] then
    advance_slideshow { st with slideshow_direction := -1 }
  else st

/-- `ImageViewer.toggle_slideshow`: if running, stop the timer and clear the
flag; otherwise start the timer with `slide_delay` and set the flag, but
only when the image list is non-empty. -/
def toggle_slideshow (st : ViewerState) : ViewerState :=
  if st.slideshow_running then
    { st with timerActive := false, slideshow_running := false }
  else if st.images ≠ [] then
    { st with timerActive := true, timerInterval := st.slide_delay,
              slideshow_running := true }
  else st

/-- `ImageViewer.change_slide_delay`: set `slide_delay := (index + 1) * 1000`;
if the slideshow is running, stop the timer and restart it with the new
delay. -/
def change_slide_delay (index : Int) (st : ViewerState) : ViewerState :=
  let st1 := { st with slide_delay := (index + 1) * 1000 }
  if st1.slideshow_running then
    { st1 with timerActive := true, timerInterval := st1.slide_delay }
  else st1

/-- Python's `str.endswith` on character lists: the last `suffix.length`
characters equal `suffix` (false when the string is shorter). -/
def ends_with (s suffix : List Char) : Bool :=
  s.drop (s.length - suffix.length) == suffix

/-- The extension filter of `ImageViewer.load_images`:
`filename.lower().endswith(('.jpg', '.jpeg', '.png', '.webp'))`.
`str.lower` is modelled as character-wise `Char.toLower` (the extensions
are ASCII), and `endswith` on a tuple is the disjunction of the four
suffix tests. -/
def is_image_file (filename : String) : Bool :=
  let l := filename.data.map Char.toLower
  ends_with l ".jpg".data || ends_with l ".jpeg".data ||
    ends_with l ".png".data || ends_with l ".webp".data

/-- `os.path.join(folder, filename)` as the Python code uses it. -/
def path_join (folder filename : String) : String :=
  folder ++ "/" ++ filename

/-- `ImageViewer.load_images`: rebuild `images` from the folder listing by
the extension filter; when the result is non-empty, clamp `current_image`
to `min(current_image, len(images) - 1)` and redisplay; slider updates do
not change the modelled state. -/
def load_images (folder : String) (listing : List String) (st : ViewerState) :
    ViewerState :=
  let images := (listing.filter is_image_file).map (path_join folder)
  if images ≠ [] then
    { st with images := images,
              current_image := min st.current_image ((images.length : Int) - 1) }
  else
    { st with images := images }

/-- A rectangle `(x, y, w, h)` as stored in `config['window_geometry']` and
as returned by `QDesktopWidget.screenGeometry`. -/
structure Rect where
  x : Int
  y : Int
  w : Int
  h : Int
  deriving Repr, DecidableEq

/-- `ImageViewer.validate_and_set_geometry`, the branch taken when a saved
geometry exists: if the saved origin is negative or a far edge exceeds the
screen's width/height, clamp the size to the screen's and center; otherwise
use the saved rectangle verbatim.  The Python `//` is floor division,
`Int.fdiv`. -/
def validate_and_set_geometry (saved screen : Rect) : Rect :=
  if saved.x < 0 ∨ saved.y < 0 ∨
     saved.x + saved.w > screen.w ∨ saved.y + saved.h > screen.h then
    let width := min saved.w screen.w
    let height := min saved.h screen.h
    let x := Int.fdiv (screen.w - width) 2
    let y := Int.fdiv (screen.h - height) 2
    ⟨x, y, width, height⟩
  else saved

/-- The saved rectangle lies fully inside the screen: origin non-negative
and far edges within the screen's width/height.  This is the negation of
the clamping condition in `validate_and_set_geometry`. -/
def fits_screen (r screen : Rect) : Prop :=
  0 ≤ r.x ∧ 0 ≤ r.y ∧ r.x + r.w ≤ screen.w ∧ r.y + r.h ≤ screen.h

instance (r screen : Rect) : Decidable (fits_screen r screen) := by
  unfold fits_screen; infer_instance

/-! ### Helper lemmas shared between claims -/

lemma advance_slideshow_images (st : ViewerState) :
    (advance_slideshow st).images = st.images := by
  unfold advance_slideshow; split <;> rfl

lemma advance_slideshow_dir (st : ViewerState) :
    (advance_slideshow st).slideshow_direction = st.slideshow_direction := by
  unfold advance_slideshow; split <;> rfl

lemma advance_iterate_forward (st : ViewerState) (h : st.images ≠ [])
    (hd : st.slideshow_direction = 1) (hc : 0 ≤ st.current_image)
    (hlt : st.current_image < (st.images.length : Int)) :
    ∀ n : Nat, (advance_slideshow^[n] st).images = st.images ∧
      (advance_slideshow^[n] st).current_image =
        ((st.current_image + n) % (st.images.length : Int)) := by
  intro n
  induction n with
  | zero =>
    refine ⟨rfl, ?_⟩
    simpa using (Int.emod_eq_of_lt hc hlt).symm
  | succ n ih =>
    obtain ⟨him, hcur⟩ := ih
    rw [Function.iterate_succ_apply']
    have hdir : (advance_slideshow^[n] st).slideshow_direction = 1 := by
      clear hcur him
      induction n with
      | zero => simpa using hd
      | succ m ihm => rw [Function.iterate_succ_apply', advance_slideshow_dir]; exact ihm
    have hne : (advance_slideshow^[n] st).images ≠ [] := by rw [him]; exact h
    refine ⟨by rw [advance_slideshow_images, him], ?_⟩
    have step : (advance_slideshow (advance_slideshow^[n] st)).current_image =
        ((advance_slideshow^[n] st).current_image +
          (advance_slideshow^[n] st).slideshow_direction) %
          (((advance_slideshow^[n] st).images.length : Int)) := by
      simp [advance_slideshow, hne]
    rw [step, hdir, hcur, him, Int.emod_add_emod]
    push_cast
    ring_nf

/-! ### Claims -/

/-- C1: for a non-empty image list of length `N`, an index in `[0, N-1]` and a
direction in `{+1, -1}`, `advance_slideshow` sets the current index to
`(index + direction) mod N`, wrapping around in both directions. -/
theorem advance_slideshow_mod (st : ViewerState) (h : st.images ≠ [])
    (hdir : st.slideshow_direction = 1 ∨ st.slideshow_direction = -1)
    (hlo : 0 ≤ st.current_image)
    (hhi : st.current_image < (st.images.length : Int)) :
    (advance_slideshow st).current_image =
      (st.current_image + st.slideshow_direction) % (st.images.length : Int) := by
  simp [advance_slideshow, h]

/-- C1 witness: the spec's example, `images = [a.jpg, b.png, c.webp]`,
`direction = -1`, `current = 0`: one advance yields `current = 2`. -/
theorem advance_slideshow_mod_witness :
    (advance_slideshow
      { images := ["a.jpg", "b.png", "c.webp"], current_image := 0,
        slideshow_direction := -1, slide_delay := 4000,
        slideshow_running := false, timerActive := false,
        timerInterval := 4000 }).current_image = 2 := by
  have h := advance_slideshow_mod
    { images := ["a.jpg", "b.png", "c.webp"], current_image := 0,
      slideshow_direction := -1, slide_delay := 4000,
      slideshow_running := false, timerActive := false, timerInterval := 4000 }
    (by decide) (Or.inr rfl) (by decide) (by decide)
  exact h.trans (by decide)

/-- C3: for a non-empty image list of length `N` and a starting index in
`[0, N-1]`, applying `advance_slideshow` `N` times with direction fixed at
`+1` returns the current index to its starting value. -/
theorem advance_slideshow_cycle (st : ViewerState) (h : st.images ≠ [])
    (hd : st.slideshow_direction = 1) (hc : 0 ≤ st.current_image)
    (hlt : st.current_image < (st.images.length : Int)) :
    (advance_slideshow^[st.images.length] st).current_image =
      st.current_image := by
  have H := (advance_iterate_forward st h hd hc hlt st.images.length).2
  rw [H]
  have h1 : (st.current_image + (st.images.length : Int)) %
      (st.images.length : Int) = st.current_image % (st.images.length : Int) := by
    have := Int.add_mul_emod_self_left st.current_image
      (st.images.length : Int) 1
    simpa using this
  rw [h1, Int.emod_eq_of_lt hc hlt]

/-- C3 witness: with three images, direction `+1` and start index `1`,
three advances return the index to `1`. -/
theorem advance_slideshow_cycle_witness :
    (advance_slideshow^[3]
      { images := ["a.jpg", "b.png", "c.webp"], current_image := 1,
        slideshow_direction := 1, slide_delay := 4000,
        slideshow_running := false, timerActive := false,
        timerInterval := 4000 }).current_image = 1 := by
  have h := advance_slideshow_cycle
    { images := ["a.jpg", "b.png", "c.webp"], current_image := 1,
      slideshow_direction := 1, slide_delay := 4000,
      slideshow_running := false, timerActive := false, timerInterval := 4000 }
    (by decide) rfl (by decide) (by decide)
  exact h

/-- C4: with an empty image list, `advance_slideshow` is a no-op on the whole
state and `show_current_image` displays nothing (empty state). -/
theorem advance_slideshow_empty (st : ViewerState) (h : st.images = []) :
    advance_slideshow st = st ∧ show_current_image st = none := by
  refine ⟨?_, ?_⟩
  · simp [advance_slideshow, h]
  · simp [show_current_image, h]

/-- C4 witness: a concrete empty-list state. -/
theorem advance_slideshow_empty_witness :
    advance_slideshow
      { images := [], current_image := 0, slideshow_direction := 1,
        slide_delay := 4000, slideshow_running := false,
        timerActive := false, timerInterval := 4000 } =
      { images := [], current_image := 0, slideshow_direction := 1,
        slide_delay := 4000, slideshow_running := false,
        timerActive := false, timerInterval := 4000 } ∧
    show_current_image
      { images := [], current_image := 0, slideshow_direction := 1,
        slide_delay := 4000, slideshow_running := false,
        timerActive := false, timerInterval := 4000 } = none :=
  advance_slideshow_empty _ rfl

/-- C5: with a non-empty image list, "next" sets the direction to `+1` before
advancing, "previous" sets it to `-1` before advancing, and a timer-driven
advance (`advance_slideshow` alone) leaves the direction unchanged. -/
theorem direction_actions (st : ViewerState) (h : st.images ≠ []) :
    show_next_image st =
      advance_slideshow { st with slideshow_direction := 1 } ∧
    (show_next_image st).slideshow_direction = 1 ∧
    show_previous_image st =
      advance_slideshow { st with slideshow_direction := -1 } ∧
    (show_previous_image st).slideshow_direction = -1 ∧
    (advance_slideshow st).slideshow_direction = st.slideshow_direction := by
  have hn : show_next_image st =
      advance_slideshow { st with slideshow_direction := 1 } := by
    simp [show_next_image, h]
  have hp : show_previous_image st =
      advance_slideshow { st with slideshow_direction := -1 } := by
    simp [show_previous_image, h]
  refine ⟨hn, ?_, hp, ?_, advance_slideshow_dir st⟩
  · rw [hn, advance_slideshow_dir]
  · rw [hp, advance_slideshow_dir]

/-- C5 witness: the three direction facts at a concrete two-image state. -/
theorem direction_actions_witness :
    (show_next_image
      { images := ["a.jpg", "b.png"], current_image := 0,
        slideshow_direction := -1, slide_delay := 2000,
        slideshow_running := false, timerActive := false,
        timerInterval := 2000 }).slideshow_direction = 1 ∧
    (show_previous_image
      { images := ["a.jpg", "b.png"], current_image := 0,
        slideshow_direction := 1, slide_delay := 2000,
        slideshow_running := false, timerActive := false,
        timerInterval := 2000 }).slideshow_direction = -1 := by
  refine ⟨?_, ?_⟩
  · exact (direction_actions
      { images := ["a.jpg", "b.png"], current_image := 0,
        slideshow_direction := -1, slide_delay := 2000,
        slideshow_running := false, timerActive := false,
        timerInterval := 2000 } (by decide)).2.1
  · exact (direction_actions
      { images := ["a.jpg", "b.png"], current_image := 0,
        slideshow_direction := 1, slide_delay := 2000,
        slideshow_running := false, timerActive := false,
        timerInterval := 2000 } (by decide)).2.2.2.1

/-- C6: while the slideshow is running, `change_slide_delay` restarts the
timer with the new interval `(index + 1) * 1000`, leaves the current image
index unchanged, and changes nothing else: images, direction and the
running flag are all preserved. -/
theorem change_slide_delay_frame (st : ViewerState) (index : Int)
    (h : st.slideshow_running = true) :
    (change_slide_delay index st).slide_delay = (index + 1) * 1000 ∧
    (change_slide_delay index st).timerActive = true ∧
    (change_slide_delay index st).timerInterval = (index + 1) * 1000 ∧
    (change_slide_delay index st).current_image = st.current_image ∧
    (change_slide_delay index st).images = st.images ∧
    (change_slide_delay index st).slideshow_direction =
      st.slideshow_direction ∧
    (change_slide_delay index st).slideshow_running =
      st.slideshow_running := by
  simp [change_slide_delay, h]

/-- C6 witness: a running state with delay index `2` (3 seconds). -/
theorem change_slide_delay_frame_witness :
    (change_slide_delay 2
      { images := ["a.jpg"], current_image := 0, slideshow_direction := 1,
        slide_delay := 1000, slideshow_running := true,
        timerActive := true, timerInterval := 1000 }).slide_delay = 3000 ∧
    (change_slide_delay 2
      { images := ["a.jpg"], current_image := 0, slideshow_direction := 1,
        slide_delay := 1000, slideshow_running := true,
        timerActive := true, timerInterval := 1000 }).timerInterval = 3000 ∧
    (change_slide_delay 2
      { images := ["a.jpg"], current_image := 0, slideshow_direction := 1,
        slide_delay := 1000, slideshow_running := true,
        timerActive := true, timerInterval := 1000 }).current_image = 0 := by
  have h := change_slide_delay_frame
    { images := ["a.jpg"], current_image := 0, slideshow_direction := 1,
      slide_delay := 1000, slideshow_running := true,
      timerActive := true, timerInterval := 1000 } 2 rfl
  exact ⟨h.1.trans (by decide), h.2.2.1.trans (by decide), h.2.2.2.1⟩

/-- C7: with an empty image list and the slideshow not running,
`toggle_slideshow` is rejected silently: the state is unchanged, so the
timer is not started and the running flag stays false. -/
theorem toggle_slideshow_empty_noop (st : ViewerState)
    (h1 : st.images = []) (h2 : st.slideshow_running = false) :
    toggle_slideshow st = st := by
  simp [toggle_slideshow, h1, h2]

/-- C7 witness: a concrete empty, stopped state. -/
theorem toggle_slideshow_empty_noop_witness :
    toggle_slideshow
      { images := [], current_image := 0, slideshow_direction := 1,
        slide_delay := 4000, slideshow_running := false,
        timerActive := false, timerInterval := 4000 } =
      { images := [], current_image := 0, slideshow_direction := 1,
        slide_delay := 4000, slideshow_running := false,
        timerActive := false, timerInterval := 4000 } :=
  toggle_slideshow_empty_noop _ rfl rfl

/-- C2: for rectangles with non-negative dimensions, the geometry reconciler
returns the saved rectangle unchanged when it lies fully inside the screen;
otherwise it returns a rectangle whose width and height are clamped to the
screen's and that is centered on the screen (floor-division centering, as
the Python `//`); in every case the result lies within the screen. -/
theorem validate_and_set_geometry_spec (saved screen : Rect)
    (hw : 0 ≤ saved.w) (hh : 0 ≤ saved.h)
    (hsw : 0 ≤ screen.w) (hsh : 0 ≤ screen.h) :
    (fits_screen saved screen →
      validate_and_set_geometry saved screen = saved) ∧
    (¬ fits_screen saved screen →
      (validate_and_set_geometry saved screen).w = min saved.w screen.w ∧
      (validate_and_set_geometry saved screen).h = min saved.h screen.h ∧
      (validate_and_set_geometry saved screen).x =
        Int.fdiv (screen.w - min saved.w screen.w) 2 ∧
      (validate_and_set_geometry saved screen).y =
        Int.fdiv (screen.h - min saved.h screen.h) 2) ∧
    fits_screen (validate_and_set_geometry saved screen) screen := by
  have e1 : Int.fdiv (screen.w - min saved.w screen.w) 2 =
      (screen.w - min saved.w screen.w) / 2 :=
    Int.fdiv_eq_ediv _ (by norm_num)
  have e2 : Int.fdiv (screen.h - min saved.h screen.h) 2 =
      (screen.h - min saved.h screen.h) / 2 :=
    Int.fdiv_eq_ediv _ (by norm_num)
  by_cases hcond : saved.x < 0 ∨ saved.y < 0 ∨
      saved.x + saved.w > screen.w ∨ saved.y + saved.h > screen.h
  · have hval : validate_and_set_geometry saved screen =
        ⟨Int.fdiv (screen.w - min saved.w screen.w) 2,
         Int.fdiv (screen.h - min saved.h screen.h) 2,
         min saved.w screen.w, min saved.h screen.h⟩ := by
      simp only [validate_and_set_geometry, if_pos hcond]
    refine ⟨fun hfit => ?_, fun _ => ?_, ?_⟩
    · unfold fits_screen at hfit; omega
    · rw [hval]; exact ⟨rfl, rfl, rfl, rfl⟩
    · rw [hval]
      unfold fits_screen
      dsimp only
      rw [e1, e2]
      omega
  · have hval : validate_and_set_geometry saved screen = saved := by
      simp only [validate_and_set_geometry, if_neg hcond]
    refine ⟨fun _ => hval, fun hnfit => ?_, ?_⟩
    · exfalso; unfold fits_screen at hnfit; omega
    · rw [hval]; unfold fits_screen; omega

/-- C2 witness: a rectangle inside an 800×600 screen is returned verbatim,
and one sticking out on the left is recentered inside the screen. -/
theorem validate_and_set_geometry_spec_witness :
    validate_and_set_geometry ⟨10, 20, 100, 100⟩ ⟨0, 0, 800, 600⟩ =
      ⟨10, 20, 100, 100⟩ ∧
    fits_screen
      (validate_and_set_geometry ⟨-5, 20, 900, 100⟩ ⟨0, 0, 800, 600⟩)
      ⟨0, 0, 800, 600⟩ := by
  refine ⟨?_, ?_⟩
  · exact (validate_and_set_geometry_spec ⟨10, 20, 100, 100⟩ ⟨0, 0, 800, 600⟩
      (by decide) (by decide) (by decide) (by decide)).1 (by decide)
  · exact (validate_and_set_geometry_spec ⟨-5, 20, 900, 100⟩ ⟨0, 0, 800, 600⟩
      (by decide) (by decide) (by decide) (by decide)).2.2

lemma path_join_right_inj (folder : String) {a b : String}
    (h : path_join folder a = path_join folder b) : a = b := by
  unfold path_join at h
  have hd := congrArg String.data h
  simp only [String.data_append] at hd
  exact String.ext (List.append_cancel_left hd)

/-- C8: for every folder listing, `load_images` includes exactly the files
whose lowercased names end in `.jpg`, `.jpeg`, `.png` or `.webp`: the image
list is the extension-filtered listing (joined with the folder), and a
listed file's joined path is in the result exactly when the filter accepts
it; every other file is silently skipped. -/
theorem load_images_extension_filter (folder : String)
    (listing : List String) (st : ViewerState) :
    (load_images folder listing st).images =
      (listing.filter is_image_file).map (path_join folder) ∧
    ∀ f, f ∈ listing →
      (path_join folder f ∈ (load_images folder listing st).images ↔
        is_image_file f = true) := by
  have him : (load_images folder listing st).images =
      (listing.filter is_image_file).map (path_join folder) := by
    by_cases hm : (listing.filter is_image_file).map (path_join folder) = [] <;>
      simp [load_images, hm]
  refine ⟨him, fun f hf => ?_⟩
  rw [him]
  constructor
  · intro hmem
    obtain ⟨g, hg, hgf⟩ := List.mem_map.mp hmem
    obtain ⟨-, hgi⟩ := List.mem_filter.mp hg
    exact path_join_right_inj folder hgf ▸ hgi
  · intro hif
    exact List.mem_map.mpr ⟨f, List.mem_filter.mpr ⟨hf, hif⟩, rfl⟩

/-- C8 witness: a mixed listing keeps exactly the image files, and the
membership characterization holds at `a.JPG`. -/
theorem load_images_extension_filter_witness :
    (load_images "d" ["a.JPG", "b.txt", "c.PnG", "e.jpeg", "f.gif"]
      { images := [], current_image := 0, slideshow_direction := 1,
        slide_delay := 4000, slideshow_running := false,
        timerActive := false, timerInterval := 4000 }).images =
      ["d/a.JPG", "d/c.PnG", "d/e.jpeg"] ∧
    path_join "d" "a.JPG" ∈
      (load_images "d" ["a.JPG", "b.txt", "c.PnG", "e.jpeg", "f.gif"]
        { images := [], current_image := 0, slideshow_direction := 1,
          slide_delay := 4000, slideshow_running := false,
          timerActive := false, timerInterval := 4000 }).images := by
  have h := load_images_extension_filter "d"
    ["a.JPG", "b.txt", "c.PnG", "e.jpeg", "f.gif"]
    { images := [], current_image := 0, slideshow_direction := 1,
      slide_delay := 4000, slideshow_running := false,
      timerActive := false, timerInterval := 4000 }
  refine ⟨h.1.trans (by decide), ?_⟩
  exact (h.2 "a.JPG" (by decide)).mpr (by decide)

/-- C9 counterexample: the claim says loading a folder with zero matching
files leaves the current index at 0, for every starting state.  From a
startup state whose persisted index is 5 (the config's `current_slide` is
taken over unvalidated), loading a folder whose only entry is `notes.txt`
leaves the index at 5, not 0. -/
theorem load_images_no_match_counterexample :
    (load_images "d" ["notes.txt"]
      { images := [], current_image := 5, slideshow_direction := 1,
        slide_delay := 4000, slideshow_running := false,
        timerActive := false, timerInterval := 4000 }).current_image = 5 ∧
    (5 : Int) ≠ 0 := by
  exact ⟨by decide, by decide⟩

/-- C9 (amended): loading a folder that contains zero matching image files
leaves the current index unchanged, empties the image list, and disables
the start-playback action: toggling the slideshow afterwards (when it is
not running) is a no-op. -/
theorem load_images_no_match (folder : String) (listing : List String)
    (st : ViewerState) (h : listing.filter is_image_file = []) :
    (load_images folder listing st).current_image = st.current_image ∧
    (load_images folder listing st).images = [] ∧
    (st.slideshow_running = false →
      toggle_slideshow (load_images folder listing st) =
        load_images folder listing st) := by
  have hval : load_images folder listing st = { st with images := [] } := by
    simp [load_images, h]
  rw [hval]
  refine ⟨rfl, rfl, fun hrun => ?_⟩
  simp [toggle_slideshow, hrun]

/-- C9 (amended) witness: the concrete no-match load from index 5 keeps the
index, empties the list, and start-playback is inert. -/
theorem load_images_no_match_witness :
    (load_images "d" ["notes.txt", "README"]
      { images := [], current_image := 5, slideshow_direction := 1,
        slide_delay := 4000, slideshow_running := false,
        timerActive := false, timerInterval := 4000 }).current_image = 5 ∧
    (load_images "d" ["notes.txt", "README"]
      { images := [], current_image := 5, slideshow_direction := 1,
        slide_delay := 4000, slideshow_running := false,
        timerActive := false, timerInterval := 4000 }).images = [] ∧
    toggle_slideshow (load_images "d" ["notes.txt", "README"]
      { images := [], current_image := 5, slideshow_direction := 1,
        slide_delay := 4000, slideshow_running := false,
        timerActive := false, timerInterval := 4000 }) =
      load_images "d" ["notes.txt", "README"]
        { images := [], current_image := 5, slideshow_direction := 1,
          slide_delay := 4000, slideshow_running := false,
          timerActive := false, timerInterval := 4000 } := by
  have h := load_images_no_match "d" ["notes.txt", "README"]
    { images := [], current_image := 5, slideshow_direction := 1,
      slide_delay := 4000, slideshow_running := false,
      timerActive := false, timerInterval := 4000 } (by decide)
  exact ⟨h.1, h.2.1, h.2.2 rfl⟩

/-- C10: loading a folder that yields a non-empty image list of length `N`
clamps a non-negative prior index to `min(prior, N - 1)`, which lies in
`[0, N-1]`. -/
theorem load_images_clamps_index (folder : String) (listing : List String)
    (st : ViewerState) (h : listing.filter is_image_file ≠ [])
    (hc : 0 ≤ st.current_image) :
    (load_images folder listing st).current_image =
      min st.current_image
        (((load_images folder listing st).images.length : Int) - 1) ∧
    0 ≤ (load_images folder listing st).current_image ∧
    (load_images folder listing st).current_image <
      ((load_images folder listing st).images.length : Int) := by
  have hm : (listing.filter is_image_file).map (path_join folder) ≠ [] := by
    simpa using h
  have hval : load_images folder listing st =
      { st with images := (listing.filter is_image_file).map (path_join folder),
                current_image := min st.current_image
                  ((((listing.filter is_image_file).map
                      (path_join folder)).length : Int) - 1) } := by
    simp [load_images, hm]
  rw [hval]
  have hlen : 0 < ((listing.filter is_image_file).map (path_join folder)).length :=
    List.length_pos.mpr hm
  refine ⟨rfl, ?_, ?_⟩ <;> · dsimp only; omega

/-- C10 witness: with persisted index 5 and two matching files, the index is
clamped to 1 and lies in `[0, 1]`. -/
theorem load_images_clamps_index_witness :
    (load_images "d" ["a.jpg", "b.png", "notes.txt"]
      { images := [], current_image := 5, slideshow_direction := 1,
        slide_delay := 4000, slideshow_running := false,
        timerActive := false, timerInterval := 4000 }).current_image = 1 := by
  have h := load_images_clamps_index "d" ["a.jpg", "b.png", "notes.txt"]
    { images := [], current_image := 5, slideshow_direction := 1,
      slide_delay := 4000, slideshow_running := false,
      timerActive := false, timerInterval := 4000 } (by decide) (by decide)
  exact h.1.trans (by decide)
